import Mathlib

/-!
Verification of the LinuxIO authentication broker (`linuxio-auth`) and its
setuid helper (`linuxio-auth-helper`) against their natural-language
specification.  The definitions below are a shallow embedding of the C
sources: byte streams are `List Nat` (each element one octet), fallible
parsing returns `Option`/`HandleOutcome`, and the operating-system calls a
code path branches on are passed in explicitly as records of observed
results.
-/

namespace LinuxAuth

/-! ## Protocol constants (src/packaging/linuxio_protocol.h) -/

/-- Maximum username buffer capacity, `PROTO_MAX_USERNAME` (256). -/
def PROTO_MAX_USERNAME : Nat := 256

/-- Maximum password buffer capacity, `PROTO_MAX_PASSWORD` (8192 in
src/packaging/linuxio_protocol.h). -/
def PROTO_MAX_PASSWORD : Nat := 8192

/-- Maximum session-id buffer capacity, `PROTO_MAX_SESSION_ID` (64). -/
def PROTO_MAX_SESSION_ID : Nat := 64

/-! ## Binary codec helpers (src/backend/auth/linuxio-auth.c) -/

/-- Embeds `read_u16_be`: big-endian 16-bit value from two bytes. -/
def read_u16_be (b0 b1 : Nat) : Nat :=
  b0 * 256 + b1

/-- Embeds `write_u16_be`: two big-endian bytes of a 16-bit value (the
`(uint8_t)` casts are the `% 256` reductions). -/
def write_u16_be (v : Nat) : List Nat :=
  [v / 256 % 256, v % 256]

/-- Embeds `write_u32_be`: four big-endian bytes of a 32-bit value. -/
def write_u32_be (v : Nat) : List Nat :=
  [v / 2 ^ 24 % 256, v / 2 ^ 16 % 256, v / 2 ^ 8 % 256, v % 256]

/-- Embeds `write_lenstr`: a 2-byte big-endian length prefix equal to
`min (length s) 0xFFFF` followed by exactly that many bytes; a NULL string
(`none`) is emitted as length 0 with no payload. -/
def write_lenstr (s : Option (List Nat)) : List Nat :=
  let len : Nat :=
    match s with
    | none => 0
    | some bytes => min bytes.length 0xFFFF
  write_u16_be len ++ (s.getD []).take len

/-- Embeds `read_lenstr` over an input byte stream.  `bufsz` is the capacity
of the receiving buffer.  Returns the parsed payload and the remaining
stream, or `none` on failure: missing bytes (`read_all` hits EOF), zero
capacity, or a declared length that is not strictly below `bufsz`.  The
`len = 0` early-success and the `len >= bufsz` rejection follow the source
order. -/
def read_lenstr (bufsz : Nat) (input : List Nat) : Option (List Nat × List Nat) :=
  if bufsz = 0 then none
  else
    match input with
    | b0 :: b1 :: rest =>
      let len := read_u16_be b0 b1
      if len = 0 then some ([], rest)
      else if bufsz ≤ len then none
      else if rest.length < len then none
      else some (rest.take len, rest.drop len)
    | _ => none

/-! ## Input validation (src/backend/auth/linuxio-auth.c, `valid_session_id`) -/

/-- Character class accepted by `valid_session_id`: `[A-Za-z0-9_-]`, on byte
values. -/
def session_char_ok (c : Nat) : Bool :=
  (65 ≤ c && c ≤ 90) || (97 ≤ c && c ≤ 122) || (48 ≤ c && c ≤ 57) || c = 95 || c = 45

/-- Embeds `valid_session_id`: non-empty, at most 64 bytes, every byte in
`[A-Za-z0-9_-]`. -/
def valid_session_id (s : List Nat) : Bool :=
  if s.isEmpty then false
  else if 64 < s.length then false
  else s.all session_char_ok

/-! ## Request field handling (src/backend/auth/linuxio-auth.c, `handle_client`) -/

/-- C-string view of a parsed field buffer: `read_lenstr` NUL-terminates the
copied bytes, and every later use of a field in `handle_client` — the
`user[0]`/`session_id[0]` required-field tests, the `strlen` inside
`valid_session_id`, the strings handed to the host verifier — reads the
buffer as a C string, i.e. only the bytes before the first NUL. -/
def cstr (bytes : List Nat) : List Nat :=
  bytes.takeWhile (fun b => b != 0)

/-- The parsed request fields (`user`, `password`, `session_id`). -/
structure Request where
  user : List Nat
  password : List Nat
  sessionId : List Nat
deriving DecidableEq, Repr

/-- Outcome of the field-reading and validation phase of `handle_client`:
either an error response string together with the broker exit code, or a
parsed request. -/
inductive HandleOutcome where
  | errResp (msg : String) (exitCode : Nat)
  | okReq (r : Request)
deriving DecidableEq, Repr

/-- Embeds the field phase of `handle_client`: read the three
length-prefixed fields with capacities `PROTO_MAX_USERNAME`,
`PROTO_MAX_PASSWORD`, `PROTO_MAX_SESSION_ID`; from there the buffers are
used as C strings (`cstr`), so the `!user[0] || !session_id[0]`
required-field test is emptiness of the C-string views, the session id is
validated on its C-string view, and the request record carries the C
strings. -/
def handle_request_fields (input : List Nat) : HandleOutcome :=
  match read_lenstr PROTO_MAX_USERNAME input with
  | none => .errResp "failed to read request fields" 1
  | some (userRaw, rest1) =>
    match read_lenstr PROTO_MAX_PASSWORD rest1 with
    | none => .errResp "failed to read request fields" 1
    | some (passwordRaw, rest2) =>
      match read_lenstr PROTO_MAX_SESSION_ID rest2 with
      | none => .errResp "failed to read request fields" 1
      | some (sessionRaw, _) =>
        if (cstr userRaw).isEmpty || (cstr sessionRaw).isEmpty then
          .errResp "missing required fields" 1
        else if !valid_session_id (cstr sessionRaw) then
          .errResp "invalid session_id format" 1
        else
          .okReq ⟨cstr userRaw, cstr passwordRaw, cstr sessionRaw⟩

/-- Client-side emission of the three request fields, as the wire format
prescribes: each field length-prefixed with `write_lenstr`. -/
def encode_request_fields (user password sessionId : List Nat) : List Nat :=
  write_lenstr (some user) ++ (write_lenstr (some password)
    ++ (write_lenstr (some sessionId) ++ []))

/-! ## Bootstrap message (src/backend/auth/linuxio-auth.c, `write_bootstrap_binary`) -/

/-- Modelled from the spec: the protocol magic bytes `'L','I','O'` and
version 1 (`PROTO_MAGIC_0..2`, `PROTO_VERSION` are declared in a protocol
header of this repository that is not under src/; the spec fixes them as
`0x4C 0x49 0x4F` and `1`). -/
def PROTO_MAGIC_BYTES : List Nat := [0x4C, 0x49, 0x4F, 1]

/-- Modelled from the spec: bootstrap flag bits, bit0 = verbose, bit1 =
privileged (`PROTO_FLAG_VERBOSE`, `PROTO_FLAG_PRIVILEGED`). -/
def bootstrap_flags (verbose privileged : Bool) : Nat :=
  (if verbose then 1 else 0) + (if privileged then 2 else 0)

/-- Fixed 13-byte bootstrap header: magic, version, uid, gid, flags. -/
def bootstrap_header (uid gid : Nat) (verbose privileged : Bool) : List Nat :=
  PROTO_MAGIC_BYTES ++ write_u32_be uid ++ write_u32_be gid
    ++ [bootstrap_flags verbose privileged]

/-- Embeds `write_bootstrap_binary`: fixed header followed by the three
length-prefixed fields `session_id`, `username`, `motd` (each written with
`write_lenstr`; a NULL field, as the caller passes for an empty MOTD, is
`none`). -/
def write_bootstrap_binary (session_id username motd : Option (List Nat))
    (uid gid : Nat) (verbose privileged : Bool) : List Nat :=
  bootstrap_header uid gid verbose privileged
    ++ write_lenstr session_id ++ write_lenstr username ++ write_lenstr motd

/-! ## Exec confirmation (src/backend/auth/linuxio-auth.c, `handle_client`) -/

/-- Response status byte: 0 = ok, 1 = error. -/
inductive RespStatus where
  | ok
  | error
deriving DecidableEq, Repr

/-- What the parent observes on the read end of the exec-status pipe after
spawning the bridge: the bounded `select` times out, `select` itself fails,
the subsequent `read` returns a data byte (the child reported exec
failure), returns 0 (EOF: close-on-exec closed the write end, exec
succeeded), or fails. -/
inductive ExecStatusObs where
  | timeout
  | selectFail
  | dataByte (b : Nat)
  | eof
  | readFail
deriving DecidableEq, Repr

/-- What the broker does after the exec-status wait. -/
structure ExecConfirmResult where
  status : RespStatus
  message : Option String
  childKilled : Bool
  childReaped : Bool
deriving DecidableEq, Repr

/-- Embeds the exec-confirmation tail of `handle_client`: timeout kills the
child with SIGKILL, reaps it and answers `bridge start timeout`; a select
failure kills, reaps and answers `bridge exec status failed`; a data byte
answers `bridge exec failed` and reaps the already-exiting child; EOF sends
the ok response; a failed read also falls through to the ok response (the
source comments that a read error is treated as exec having succeeded). -/
def exec_confirm : ExecStatusObs → ExecConfirmResult
  | .timeout => ⟨.error, some "bridge start timeout", true, true⟩
  | .selectFail => ⟨.error, some "bridge exec status failed", true, true⟩
  | .dataByte _ => ⟨.error, some "bridge exec failed", false, true⟩
  | .eof => ⟨.ok, none, false, false⟩
  | .readFail => ⟨.ok, none, false, false⟩

/-! ## Privilege drop (src/backend/auth/linuxio-auth.c and
src/packaging/linuxio-auth-helper.c, `drop_to_user`) -/

/-- Results of the credential syscalls as observed by `drop_to_user`: which
calls succeed, whether a subsequent `setuid(0)` would succeed (privilege
regain), and the real/effective ids `getuid`/`geteuid`/`getgid`/`getegid`
would report afterwards. -/
structure DropEnv where
  setgroupsOk : Bool
  initgroupsOk : Bool
  setgidOk : Bool
  setuidOk : Bool
  setuid0Regains : Bool
  ruid : Nat
  euid : Nat
  rgid : Nat
  egid : Nat
deriving DecidableEq, Repr

/-- Whether the child terminates with `_exit(127)` or falls through to the
code that runs as the target identity. -/
inductive DropOutcome where
  | exit127
  | proceed
deriving DecidableEq, Repr

/-- Embeds the broker's `drop_to_user` (src/backend/auth/linuxio-auth.c):
`setgroups`, `initgroups`, `setgid`, `setuid`, then the single check that
`setuid(0)` fails.  It does not consult `getuid`/`geteuid`/`getgid`/`getegid`. -/
def broker_drop_to_user (e : DropEnv) : DropOutcome :=
  if !e.setgroupsOk then .exit127
  else if !e.initgroupsOk then .exit127
  else if !e.setgidOk then .exit127
  else if !e.setuidOk then .exit127
  else if e.setuid0Regains then .exit127
  else .proceed

/-- Embeds the helper's `drop_to_user` (src/packaging/linuxio-auth-helper.c):
the same sequence, followed by the `setuid(0)` regain check and the
verification that real and effective uid and gid equal the target. -/
def helper_drop_to_user (uid gid : Nat) (e : DropEnv) : DropOutcome :=
  if !e.setgroupsOk then .exit127
  else if !e.initgroupsOk then .exit127
  else if !e.setgidOk then .exit127
  else if !e.setuidOk then .exit127
  else if e.setuid0Regains then .exit127
  else if e.ruid ≠ uid || e.euid ≠ uid then .exit127
  else if e.rgid ≠ gid || e.egid ≠ gid then .exit127
  else .proceed

/-! ## Elevation probe (src/backend/auth/linuxio-auth.c, `user_has_sudo`) -/

/-- Terminal observation of a probe child by the bounded `waitpid` loop in
`run_cmd_as_user_with_input`: the timeout elapsed (child killed with
SIGKILL and reaped), the child exited with a code, the child was killed by
a signal, or the wait itself failed. -/
inductive CmdOutcome where
  | timedOut
  | exited (code : Nat)
  | signaled (sig : Nat)
  | waitFailed
deriving DecidableEq, Repr

/-- Return value of `run_cmd_as_user_with_input` as an integer: `-1` when
the timeout elapsed (child killed and reaped), the exit code on normal
exit, `128 + signal` on a signal death — and `0` when `waitpid` itself
failed: the loop then breaks with `status` still `0`, the timeout branch is
skipped, `WIFEXITED(0)` holds and the function returns
`WEXITSTATUS(0) = 0`. -/
def run_cmd_rc : CmdOutcome → Int
  | .timedOut => -1
  | .exited code => (code : Int)
  | .signaled sig => 128 + (sig : Int)
  | .waitFailed => 0

/-- Result of the elevation probe: the mode boolean and which sudo
invocations were issued. -/
structure SudoProbeResult where
  privileged : Bool
  probeInvoked : Bool
  dropTicketInvoked : Bool
deriving DecidableEq, Repr

/-- Embeds `user_has_sudo`: an empty (or absent) password returns
unprivileged without running anything; otherwise `sudo -S -p "" -v` is run
as the user with the password on stdin, and exactly when it returns 0 the
`sudo -k` drop-ticket invocation is issued and the probe reports
privileged.  Any other outcome (timeout included) reports unprivileged. -/
def user_has_sudo (password : List Nat) (probe : CmdOutcome) : SudoProbeResult :=
  if password.isEmpty then ⟨false, false, false⟩
  else if run_cmd_rc probe = 0 then ⟨true, true, true⟩
  else ⟨false, true, false⟩

/-! ## Runtime directory setup (src/packaging/linuxio-auth-helper.c,
`ensure_runtime_dirs`) -/

/-- Metadata of one directory on disk as `fstat` reports it: whether the
entry is a directory, its owner, group and 12-bit mode (permission bits
plus setuid/setgid/sticky). -/
structure DirNode where
  isDir : Bool
  uid : Nat
  gid : Nat
  mode : Nat
deriving DecidableEq, Repr

/-- State of the two directories the setup touches: `/run/linuxio` and
`/run/linuxio/<uid>` (`none` = does not exist yet). -/
structure RunFs where
  base : Option DirNode
  userDir : Option DirNode
deriving DecidableEq, Repr

/-- Which of the four repair syscalls succeed during a run (`fchown` and
`fchmod` on the base and user directory handles). -/
structure FsOps where
  baseFchownOk : Bool
  baseFchmodOk : Bool
  userFchownOk : Bool
  userFchmodOk : Bool
deriving DecidableEq, Repr

/-- The oracle for a run in which every repair syscall succeeds. -/
def FsOps.allOk : FsOps :=
  ⟨true, true, true, true⟩

/-- Embeds `ensure_runtime_dirs` for user `uid` with socket group `lgid`:
`mkdirat` of `linuxio` under the `/run` handle with mode 02771 (EEXIST
tolerated, umask cleared), re-open with no-follow, require a directory
owned by root and not world-writable, `fchown` to root:`lgid` (on failure
tolerated only when the group already matches), best-effort `fchmod` to
02771; then `mkdirat` of the uid entry with mode 02770 (a created entry
inherits the setgid base's group), re-open, require a directory, `fchown`
to `uid`:`lgid` when owner or group mismatch (an `fchown` failure is fatal
only when the owner itself mismatches), `fchmod` to 02770 (failure fatal
only when the directory is world-writable).  Returns the resulting tree on
success, `none` on failure. -/
def ensure_runtime_dirs (uid lgid : Nat) (ops : FsOps) (fs : RunFs) : Option RunFs :=
  let base0 : DirNode := fs.base.getD ⟨true, 0, 0, 0o2771⟩
  if !base0.isDir then none
  else if base0.uid != 0 || base0.mode &&& 0o002 != 0 then none
  else
    let base1 := if ops.baseFchownOk then { base0 with uid := 0, gid := lgid } else base0
    if !ops.baseFchownOk && base1.gid != lgid then none
    else
      let base2 := if ops.baseFchmodOk then { base1 with mode := 0o2771 } else base1
      let user0 : DirNode := fs.userDir.getD ⟨true, 0, base2.gid, 0o2770⟩
      if !user0.isDir then none
      else
        let user1step : Option DirNode :=
          if user0.uid != uid || user0.gid != lgid then
            if ops.userFchownOk then some { user0 with uid := uid, gid := lgid }
            else if user0.uid != uid then none
            else some user0
          else some user0
        match user1step with
        | none => none
        | some user1 =>
          let user2step : Option DirNode :=
            if ops.userFchmodOk then some { user1 with mode := 0o2770 }
            else if user1.mode &&& 0o002 != 0 then none
            else some user1
          match user2step with
          | none => none
          | some user2 => some ⟨some base2, some user2⟩

/-! ## Bridge binary validation (src/backend/auth/linuxio-auth.c,
`validate_bridge_via_fd` / `open_and_validate_bridge`) -/

/-- Metadata of the target executable as `fstat` on the O_PATH handle
reports it. -/
structure FileMeta where
  isReg : Bool
  uid : Nat
  mode : Nat
deriving DecidableEq, Repr

/-- Metadata of the parent directory handle. -/
structure DirMeta where
  isDir : Bool
  uid : Nat
  mode : Nat
deriving DecidableEq, Repr

/-- Embeds `validate_bridge_via_fd`: regular file, not group- or
world-writable (mask 0o022), owned by the required owner, at least one
executable bit (mask 0o111), neither setuid nor setgid (mask 0o6000). -/
def validate_bridge_via_fd (f : FileMeta) (requiredOwner : Nat) : Bool :=
  f.isReg && f.mode &&& 0o022 == 0 && f.uid == requiredOwner
    && f.mode &&& 0o111 != 0 && f.mode &&& 0o6000 == 0

/-- Embeds `validate_parent_dir_policy`: a directory, and if the file is
root-owned the parent must be root-owned and not group/world-writable; if
the file is owned by the invoking user the parent must be user-owned and
not group/world-writable; no other combination is accepted. -/
def validate_parent_dir_policy (d : DirMeta) (fileOwner userUid : Nat) : Bool :=
  if !d.isDir then false
  else if fileOwner == 0 then d.uid == 0 && d.mode &&& 0o022 == 0
  else if fileOwner == userUid then d.uid == userUid && d.mode &&& 0o022 == 0
  else false

/-- Embeds `open_and_validate_bridge` (with the opens and the procfs
readlink succeeding): file validation against the required owner, then the
parent-directory policy with the file's owner and the required owner as
the user uid. -/
def open_and_validate_bridge (f : FileMeta) (parent : DirMeta) (requiredOwner : Nat) : Bool :=
  validate_bridge_via_fd f requiredOwner && validate_parent_dir_policy parent f.uid requiredOwner

/-- The broker's call site in `handle_client`: the required owner is 0
(root), in both privileged and unprivileged mode. -/
def broker_bridge_accept (f : FileMeta) (parent : DirMeta) : Bool :=
  open_and_validate_bridge f parent 0

/-- The helper's call sites in its `main`: privileged mode requires root
ownership; unprivileged mode first tries the user as owner, then root. -/
def helper_bridge_accept (wantPrivileged : Bool) (userUid : Nat)
    (f : FileMeta) (parent : DirMeta) : Bool :=
  if wantPrivileged then open_and_validate_bridge f parent 0
  else open_and_validate_bridge f parent userUid || open_and_validate_bridge f parent 0

/-! ## Host-verifier disposition (src/backend/auth/linuxio-auth.c,
`handle_client` PAM phase) -/

/-- Host-verifier return codes the broker distinguishes: success, the
distinguished new-authtok-required (password expired) code, or any other
failure code. -/
inductive PamRc where
  | success
  | newAuthtokReqd
  | otherFail (code : Nat)
deriving DecidableEq, Repr

/-- Outcome of the authentication phase: the response status and payload
sent if the phase ends the request, the code the verifier context is
released with, and whether processing continues past the phase. -/
structure AuthPhaseResult where
  status : RespStatus
  payload : String
  pamEndRc : Option PamRc
  continues : Bool
deriving DecidableEq, Repr

/-- The exact user-visible text for an expired password. -/
def expired_password_msg : String :=
  "Password has expired. Please change it via SSH or console."

/-- Embeds the PAM phase of `handle_client`: `pam_authenticate`, then on
success `pam_acct_mgmt`; if the combined code is new-authtok-required the
broker answers with `expired_password_msg` and releases the context with
that code; otherwise on success `pam_setcred(ESTABLISH)`, and any non-success
code is answered with the verifier's own `pam_strerror` text and released
with that code. -/
def auth_phase (authRc acctRc setcredRc : PamRc) (strerror : PamRc → String) :
    AuthPhaseResult :=
  let rc1 := if authRc = .success then acctRc else authRc
  if rc1 = .newAuthtokReqd then
    ⟨.error, expired_password_msg, some .newAuthtokReqd, false⟩
  else
    let rc2 := if rc1 = .success then setcredRc else rc1
    if rc2 = .success then ⟨.ok, "", none, true⟩
    else ⟨.error, strerror rc2, some rc2, false⟩

/-! ## Theorems -/

/-- Claim C1, counterexample: when the bounded select reports readiness but
the subsequent read fails (returns a negative count without EINTR), the
broker sends the success response even though EOF was never observed on the
exec-status pipe, so "ok only after observing EOF" is false as stated. -/
theorem C1_counterexample :
    (exec_confirm .readFail).status = .ok ∧ ExecStatusObs.readFail ≠ ExecStatusObs.eof := by
  decide

/-- Claim C1, amended: the broker emits the success response exactly when
the read on the exec-status pipe does not return a byte — on EOF (the
bridge passed its exec entry point) or on a read failure, which the source
treats as exec having succeeded.  A timeout kills the child with SIGKILL,
reaps it and answers `bridge start timeout`; an arriving byte answers
`bridge exec failed`; a select failure answers with an error. -/
theorem C1_exec_confirmation (obs : ExecStatusObs) :
    ((exec_confirm obs).status = .ok ↔ obs = .eof ∨ obs = .readFail)
    ∧ (obs = .timeout →
        exec_confirm obs = ⟨.error, some "bridge start timeout", true, true⟩)
    ∧ (∀ b, obs = .dataByte b →
        exec_confirm obs = ⟨.error, some "bridge exec failed", false, true⟩)
    ∧ (obs = .selectFail → (exec_confirm obs).status = .error) := by
  cases obs <;> simp [exec_confirm]

/-- Witness for `C1_exec_confirmation` at the timeout observation. -/
theorem C1_exec_confirmation_witness :
    exec_confirm .timeout = ⟨.error, some "bridge start timeout", true, true⟩ :=
  (C1_exec_confirmation .timeout).2.1 rfl

/-- Claim C2, counterexample: the broker's `drop_to_user` proceeds whenever
the four credential calls succeed and `setuid(0)` fails, even if the real
uid afterwards is 0 rather than the target uid 1000 — it never verifies
that real and effective uid and gid equal the target. -/
theorem C2_counterexample :
    broker_drop_to_user ⟨true, true, true, true, false, 0, 0, 0, 0⟩ = .proceed
    ∧ (DropEnv.mk true true true true false 0 0 0 0).ruid ≠ 1000 := by
  decide

/-- Claim C2, amended: the helper's `drop_to_user`
(src/packaging/linuxio-auth-helper.c) performs the full verification — it
proceeds only when `setuid(0)` failed and real and effective uid and gid
equal the target — while the broker's `drop_to_user`
(src/backend/auth/linuxio-auth.c) verifies only that `setuid(0)` fails.
Both terminate the child with exit code 127 otherwise. -/
theorem C2_privilege_drop (uid gid : Nat) (e : DropEnv) :
    (helper_drop_to_user uid gid e = .proceed →
      e.setuid0Regains = false ∧ e.ruid = uid ∧ e.euid = uid
        ∧ e.rgid = gid ∧ e.egid = gid)
    ∧ (broker_drop_to_user e = .proceed → e.setuid0Regains = false) := by
  constructor
  · intro h
    unfold helper_drop_to_user at h
    split_ifs at h
    simp_all
  · intro h
    unfold broker_drop_to_user at h
    split_ifs at h
    simp_all

/-- Witness for `C2_privilege_drop` at a concrete environment. -/
theorem C2_privilege_drop_witness :
    (DropEnv.mk true true true true false 1000 1000 985 985).setuid0Regains = false
      ∧ (DropEnv.mk true true true true false 1000 1000 985 985).ruid = 1000
      ∧ (DropEnv.mk true true true true false 1000 1000 985 985).euid = 1000
      ∧ (DropEnv.mk true true true true false 1000 1000 985 985).rgid = 985
      ∧ (DropEnv.mk true true true true false 1000 1000 985 985).egid = 985 :=
  (C2_privilege_drop 1000 985 ⟨true, true, true, true, false, 1000, 1000, 985, 985⟩).1
    (by decide)

theorem run_cmd_rc_eq_zero (probe : CmdOutcome) :
    run_cmd_rc probe = 0 ↔ (probe = .exited 0 ∨ probe = .waitFailed) := by
  cases probe with
  | timedOut =>
    constructor
    · intro h
      exact absurd h (by decide)
    · intro h
      rcases h with h | h
      · exact absurd h (by decide)
      · exact absurd h (by decide)
  | exited code =>
    constructor
    · intro h
      simp only [run_cmd_rc] at h
      have hc : code = 0 := by exact_mod_cast h
      subst hc
      exact Or.inl rfl
    · intro h
      rcases h with h | h
      · cases h
        rfl
      · cases h
  | signaled sig =>
    constructor
    · intro h
      exfalso
      simp only [run_cmd_rc] at h
      omega
    · intro h
      rcases h with h | h
      · cases h
      · cases h
  | waitFailed =>
    constructor
    · intro _
      exact Or.inr rfl
    · intro _
      rfl

/-- Claim C7, counterexample: when `waitpid` on the probe child fails, the
wait loop breaks with the status variable still 0, `WIFEXITED(0)` holds and
`run_cmd_as_user_with_input` returns 0, so the broker reports privileged
although the validate-only invocation did not exit with status zero within
the timeout. -/
theorem C7_counterexample :
    (user_has_sudo [97] .waitFailed).privileged = true
    ∧ CmdOutcome.waitFailed ≠ CmdOutcome.exited 0 := by
  decide

/-- Claim C7, amended: with a non-empty password, the probe reports
privileged exactly when `run_cmd_as_user_with_input` returned 0 — the
validate-only sudo invocation exited with status zero within the timeout,
or `waitpid` itself failed (leaving the status variable 0, so
`WEXITSTATUS(0) = 0` is returned); the drop-cached-ticket invocation is
issued exactly when the result is privileged, and a probe timeout yields
unprivileged (not an error). -/
theorem C7_elevation_probe (password : List Nat) (probe : CmdOutcome)
    (hne : password ≠ []) :
    ((user_has_sudo password probe).privileged = true
      ↔ (probe = .exited 0 ∨ probe = .waitFailed))
    ∧ ((user_has_sudo password probe).dropTicketInvoked
        = (user_has_sudo password probe).privileged)
    ∧ (user_has_sudo password .timedOut).privileged = false := by
  have hemp : password.isEmpty = false := by
    cases password with
    | nil => exact absurd rfl hne
    | cons a l => rfl
  refine ⟨?_, ?_, ?_⟩
  · rw [← run_cmd_rc_eq_zero probe]
    simp only [user_has_sudo, hemp, Bool.false_eq_true, if_false]
    split_ifs with hc <;> simp [hc]
  · simp only [user_has_sudo, hemp, Bool.false_eq_true, if_false]
    split_ifs <;> rfl
  · norm_num [user_has_sudo, run_cmd_rc, hemp]

/-- Witness for `C7_elevation_probe` at a one-byte password and a probe
that exits 0. -/
theorem C7_elevation_probe_witness :
    (user_has_sudo [97] (.exited 0)).privileged = true :=
  ((C7_elevation_probe [97] (.exited 0) (by decide)).1).mpr (Or.inl rfl)

/-- Claim C8: when authentication or account management returns the
distinguished new-authtok-required (password expired) code, the broker
answers status error with exactly the dedicated payload — independent of
the verifier's generic error text — and releases the verifier context with
that code. -/
theorem C8_password_expired (authRc acctRc setcredRc : PamRc) (strerror : PamRc → String)
    (h : authRc = .newAuthtokReqd ∨ (authRc = .success ∧ acctRc = .newAuthtokReqd)) :
    auth_phase authRc acctRc setcredRc strerror
      = ⟨.error, expired_password_msg, some .newAuthtokReqd, false⟩
    ∧ expired_password_msg
      = "Password has expired. Please change it via SSH or console." := by
  refine ⟨?_, rfl⟩
  rcases h with h | h
  · subst h
    simp [auth_phase]
  · obtain ⟨h1, h2⟩ := h
    subst h1
    subst h2
    simp [auth_phase]

/-- Witness for `C8_password_expired` with account management reporting the
expiry. -/
theorem C8_password_expired_witness :
    auth_phase .success .newAuthtokReqd .success (fun _ => "generic")
      = ⟨.error, expired_password_msg, some .newAuthtokReqd, false⟩ :=
  (C8_password_expired .success .newAuthtokReqd .success (fun _ => "generic")
    (Or.inr ⟨rfl, rfl⟩)).1

theorem read_u16_be_write (v : Nat) (hv : v ≤ 0xFFFF) :
    read_u16_be (v / 256 % 256) (v % 256) = v := by
  unfold read_u16_be
  omega

theorem read_lenstr_frame (bufsz : Nat) (payload rest : List Nat)
    (hmax : payload.length ≤ 0xFFFF) (hbuf : bufsz ≠ 0) :
    read_lenstr bufsz (write_u16_be payload.length ++ (payload ++ rest)) =
      if payload.length = 0 then some ([], rest)
      else if bufsz ≤ payload.length then none
      else some (payload, rest) := by
  unfold write_u16_be read_lenstr
  simp only [List.cons_append, List.nil_append, if_neg hbuf]
  rw [read_u16_be_write payload.length hmax]
  by_cases h0 : payload.length = 0
  · simp [h0, List.length_eq_zero.mp h0]
  · rw [if_neg h0, if_neg h0]
    by_cases hbs : bufsz ≤ payload.length
    · simp [hbs]
    · rw [if_neg hbs, if_neg hbs,
        if_neg (by simp), List.take_left, List.drop_left]

theorem read_lenstr_frame_ok (bufsz : Nat) (payload rest : List Nat)
    (hlt : payload.length < bufsz) (hmax : payload.length ≤ 0xFFFF) :
    read_lenstr bufsz (write_u16_be payload.length ++ (payload ++ rest))
      = some (payload, rest) := by
  rw [read_lenstr_frame bufsz payload rest hmax (by omega)]
  by_cases h0 : payload.length = 0
  · rw [if_pos h0, List.length_eq_zero.mp h0]
  · rw [if_neg h0, if_neg (by omega)]

theorem read_lenstr_frame_isSome (bufsz : Nat) (payload rest : List Nat)
    (hmax : payload.length ≤ 0xFFFF) (hbuf : bufsz ≠ 0) :
    (read_lenstr bufsz (write_u16_be payload.length ++ (payload ++ rest))).isSome = true
      ↔ payload.length < bufsz := by
  rw [read_lenstr_frame bufsz payload rest hmax hbuf]
  by_cases h0 : payload.length = 0
  · rw [if_pos h0]
    constructor
    · intro _
      omega
    · intro _
      rfl
  · by_cases hb : bufsz ≤ payload.length
    · rw [if_neg h0, if_pos hb]
      constructor
      · intro h
        exact absurd h (by simp)
      · intro h
        exfalso
        omega
    · rw [if_neg h0, if_neg hb]
      constructor
      · intro _
        omega
      · intro _
        rfl

theorem write_lenstr_small (payload : List Nat) (hmax : payload.length ≤ 0xFFFF) :
    write_lenstr (some payload) = write_u16_be payload.length ++ payload := by
  unfold write_lenstr
  simp [Nat.min_eq_left hmax, List.take_length]

theorem handle_encode (user password sessionId : List Nat)
    (hu : user.length < PROTO_MAX_USERNAME)
    (hp : password.length < PROTO_MAX_PASSWORD)
    (hs65 : sessionId.length ≤ 0xFFFF) :
    handle_request_fields (encode_request_fields user password sessionId) =
      if PROTO_MAX_SESSION_ID ≤ sessionId.length then
        .errResp "failed to read request fields" 1
      else if (cstr user).isEmpty || (cstr sessionId).isEmpty then
        .errResp "missing required fields" 1
      else if !valid_session_id (cstr sessionId) then
        .errResp "invalid session_id format" 1
      else
        .okReq ⟨cstr user, cstr password, cstr sessionId⟩ := by
  have hu65 : user.length ≤ 0xFFFF := by
    unfold PROTO_MAX_USERNAME at hu
    omega
  have hp65 : password.length ≤ 0xFFFF := by
    unfold PROTO_MAX_PASSWORD at hp
    omega
  have h1 : read_lenstr PROTO_MAX_USERNAME (encode_request_fields user password sessionId)
      = some (user, write_lenstr (some password) ++ (write_lenstr (some sessionId) ++ [])) := by
    unfold encode_request_fields
    rw [write_lenstr_small user hu65, List.append_assoc]
    exact read_lenstr_frame_ok _ _ _ hu hu65
  have h2 : read_lenstr PROTO_MAX_PASSWORD
        (write_lenstr (some password) ++ (write_lenstr (some sessionId) ++ []))
      = some (password, write_lenstr (some sessionId) ++ []) := by
    rw [write_lenstr_small password hp65, List.append_assoc]
    exact read_lenstr_frame_ok _ _ _ hp hp65
  have hshape : write_lenstr (some sessionId) ++ ([] : List Nat)
      = write_u16_be sessionId.length ++ (sessionId ++ []) := by
    rw [write_lenstr_small sessionId hs65, List.append_assoc]
  by_cases hbig : PROTO_MAX_SESSION_ID ≤ sessionId.length
  · have h3 : read_lenstr PROTO_MAX_SESSION_ID (write_lenstr (some sessionId) ++ [])
        = none := by
      rw [hshape, read_lenstr_frame _ sessionId [] hs65 (by norm_num [PROTO_MAX_SESSION_ID])]
      rw [if_neg (by unfold PROTO_MAX_SESSION_ID at hbig; omega), if_pos hbig]
    simp only [handle_request_fields, h1, h2, h3, if_pos hbig]
  · have h3 : read_lenstr PROTO_MAX_SESSION_ID (write_lenstr (some sessionId) ++ [])
        = some (sessionId, []) := by
      rw [hshape]
      exact read_lenstr_frame_ok _ _ _ (by omega) hs65
    simp only [handle_request_fields, h1, h2, h3, if_neg hbig]

/-- Claim C3, counterexample: the receiving password buffer's capacity is
`PROTO_MAX_PASSWORD` = 8192 (src/packaging/linuxio_protocol.h), not 2048:
a password field with declared length 2048 is accepted by `read_lenstr`,
although the claim's stated maximum of 2048 would require its rejection
(2048 is not strictly below 2048). -/
theorem C3_counterexample :
    (read_lenstr PROTO_MAX_PASSWORD
        (write_u16_be 2048 ++ (List.replicate 2048 97 ++ []))).isSome = true
    ∧ ¬ (2048 < 2048) := by
  constructor
  · have h := read_lenstr_frame_ok PROTO_MAX_PASSWORD (List.replicate 2048 97) []
      (by norm_num [PROTO_MAX_PASSWORD]) (by norm_num)
    rw [List.length_replicate] at h
    rw [h]
    rfl
  · omega

/-- Claim C3, amended: each length-prefixed field is accepted iff its
declared 2-byte big-endian length is strictly below the receiving buffer's
capacity, where the capacities are username 256, password 8192 and
session_id 64 (src/packaging/linuxio_protocol.h); a field whose declared
length is not below capacity fails the request with the bad-request error
response and exit code 1, as the concrete oversized-username run shows. -/
theorem C3_field_length_check (len : Nat) (payload rest : List Nat)
    (hlen : payload.length = len) (hmax : len ≤ 0xFFFF) :
    ((read_lenstr PROTO_MAX_USERNAME (write_u16_be len ++ (payload ++ rest))).isSome = true
        ↔ len < PROTO_MAX_USERNAME)
    ∧ ((read_lenstr PROTO_MAX_PASSWORD (write_u16_be len ++ (payload ++ rest))).isSome = true
        ↔ len < PROTO_MAX_PASSWORD)
    ∧ ((read_lenstr PROTO_MAX_SESSION_ID (write_u16_be len ++ (payload ++ rest))).isSome = true
        ↔ len < PROTO_MAX_SESSION_ID)
    ∧ PROTO_MAX_USERNAME = 256 ∧ PROTO_MAX_PASSWORD = 8192 ∧ PROTO_MAX_SESSION_ID = 64
    ∧ handle_request_fields (write_u16_be 300 ++ (List.replicate 300 97 ++ []))
        = .errResp "failed to read request fields" 1 := by
  subst hlen
  refine ⟨?_, ?_, ?_, rfl, rfl, rfl, ?_⟩
  · exact read_lenstr_frame_isSome _ payload rest hmax (by norm_num [PROTO_MAX_USERNAME])
  · exact read_lenstr_frame_isSome _ payload rest hmax (by norm_num [PROTO_MAX_PASSWORD])
  · exact read_lenstr_frame_isSome _ payload rest hmax (by norm_num [PROTO_MAX_SESSION_ID])
  · have h := read_lenstr_frame PROTO_MAX_USERNAME (List.replicate 300 97) []
      (by norm_num) (by norm_num [PROTO_MAX_USERNAME])
    rw [List.length_replicate] at h
    rw [if_neg (by norm_num), if_pos (by norm_num [PROTO_MAX_USERNAME])] at h
    simp only [handle_request_fields, h]

/-- Witness for `C3_field_length_check` at declared length 64: rejected for
the session_id field, accepted for the username and password fields. -/
theorem C3_field_length_check_witness :
    ((read_lenstr PROTO_MAX_SESSION_ID
        (write_u16_be 64 ++ (List.replicate 64 97 ++ []))).isSome = true
      ↔ (64 : Nat) < PROTO_MAX_SESSION_ID) :=
  ((C3_field_length_check 64 (List.replicate 64 97) []
    (by simp) (by norm_num)).2.2).1

theorem cstr_eq_self : ∀ (s : List Nat), (∀ b ∈ s, b ≠ 0) → cstr s = s
  | [], _ => rfl
  | a :: t, h => by
    unfold cstr
    rw [List.takeWhile_cons_of_pos (by simpa using h a (List.mem_cons_self a t))]
    have ih := cstr_eq_self t (fun b hb => h b (List.mem_cons_of_mem a hb))
    unfold cstr at ih
    rw [ih]

theorem cstr_ne_self : ∀ (s : List Nat), (0 : Nat) ∈ s → cstr s ≠ s
  | [], h0 => absurd h0 (by simp)
  | a :: t, h0 => by
    intro he
    unfold cstr at he
    by_cases ha : a = 0
    · subst ha
      rw [List.takeWhile_cons_of_neg (by simp)] at he
      exact absurd he (by simp)
    · rw [List.takeWhile_cons_of_pos (by simpa using ha)] at he
      have he2 : List.takeWhile (fun b => b != 0) t = t := by
        injection he
      have h0t : (0 : Nat) ∈ t := by
        rcases List.mem_cons.mp h0 with h | h
        · exact absurd h.symm ha
        · exact h
      exact cstr_ne_self t h0t (by unfold cstr; exact he2)

/-- Claim C4, counterexample: a session id of 64 `-` bytes satisfies
`valid_session_id`, but a request carrying it is rejected at the wire level
(declared length 64 equals the receiving buffer's capacity), so it is not
accepted as the claim states. -/
theorem C4_counterexample :
    valid_session_id (List.replicate 64 45) = true
    ∧ handle_request_fields
        (write_lenstr (some [97]) ++ (write_lenstr (some [])
          ++ (write_lenstr (some (List.replicate 64 45)) ++ [])))
        = .errResp "failed to read request fields" 1 := by
  decide

/-- Claim C4, amended: `valid_session_id` itself accepts exactly the
non-empty strings of at most 64 bytes over `[A-Za-z0-9_-]` (64 `-` accepted,
65 rejected, empty rejected, `/` rejected), but the wire-level length check
caps the request-accepted set at 63 bytes: a request's session id field is
accepted iff it is non-empty, strictly shorter than 64 bytes and drawn from
that character class. -/
theorem C4_session_id_acceptance (s : List Nat) (hmax : s.length ≤ 0xFFFF) :
    (handle_request_fields (encode_request_fields [97] [] s)
        = .okReq ⟨[97], [], s⟩
      ↔ s ≠ [] ∧ s.length < PROTO_MAX_SESSION_ID ∧ s.all session_char_ok = true)
    ∧ valid_session_id (List.replicate 64 45) = true
    ∧ valid_session_id (List.replicate 65 45) = false
    ∧ valid_session_id [] = false
    ∧ valid_session_id [47] = false := by
  refine ⟨?_, by decide, by decide, by decide, by decide⟩
  rw [handle_encode [97] [] s (by norm_num [PROTO_MAX_USERNAME])
    (by norm_num [PROTO_MAX_PASSWORD]) hmax]
  have hc97 : cstr [97] = [97] := rfl
  have hcnil : cstr ([] : List Nat) = [] := rfl
  by_cases hbig : PROTO_MAX_SESSION_ID ≤ s.length
  · rw [if_pos hbig]
    constructor
    · intro h
      exact absurd h (by simp)
    · intro h
      exfalso
      have h2 := h.2.1
      unfold PROTO_MAX_SESSION_ID at hbig h2
      omega
  · rw [if_neg hbig]
    by_cases hnul : ∀ b ∈ s, b ≠ 0
    · have hcs : cstr s = s := cstr_eq_self s hnul
      rw [hc97, hcnil, hcs]
      by_cases hemp : s.isEmpty
      · rw [if_pos (by simp [hemp])]
        have hsnil : s = [] := by
          cases s with
          | nil => rfl
          | cons a l => exact absurd hemp (by simp)
        constructor
        · intro h
          exact absurd h (by simp)
        · intro h
          exact absurd hsnil h.1
      · rw [if_neg (by simp [hemp])]
        have hne : s ≠ [] := by
          cases s with
          | nil => exact absurd hemp (by simp)
          | cons a l => simp
        have hvs : valid_session_id s = s.all session_char_ok := by
          unfold valid_session_id
          rw [if_neg (by simp [hemp]), if_neg (by unfold PROTO_MAX_SESSION_ID at hbig; omega)]
        by_cases hall : s.all session_char_ok
        · rw [if_neg (by simp [hvs, hall])]
          constructor
          · intro _
            refine ⟨hne, ?_, hall⟩
            unfold PROTO_MAX_SESSION_ID at hbig ⊢
            omega
          · intro _
            rfl
        · rw [if_pos (by simp [hvs, hall])]
          constructor
          · intro h
            exact absurd h (by simp)
          · intro h
            exact absurd h.2.2 (by simp [hall])
    · push_neg at hnul
      obtain ⟨b, hbmem, hb0⟩ := hnul
      subst hb0
      have hall : s.all session_char_ok = false := by
        by_contra hc
        have htrue : s.all session_char_ok = true := by
          simpa using hc
        have h0ok := List.all_eq_true.mp htrue 0 hbmem
        exact absurd h0ok (by decide)
      have hcs : cstr s ≠ s := cstr_ne_self s hbmem
      rw [hc97, hcnil]
      constructor
      · intro h
        exfalso
        split_ifs at h with hA hB
        apply hcs
        simpa using h
      · intro h
        exact absurd h.2.2 (by simp [hall])

/-- Claim C9: only username and session_id must be non-empty — a request
whose password field has declared length 0 passes framing and validation
with the empty password held in the parsed request (and forwarded to the
host verifier), and for an empty password the elevation probe reports
unprivileged immediately without invoking the elevation tool.  The
username and session-id hypotheses are on their C-string views, since
`handle_client` tests `user[0]` and validates the session id as a C
string. -/
theorem C9_empty_password (user sessionId : List Nat) (probe : CmdOutcome)
    (hu : user.length < PROTO_MAX_USERNAME)
    (hune : (cstr user).isEmpty = false)
    (hv : valid_session_id (cstr sessionId) = true)
    (hs : sessionId.length < PROTO_MAX_SESSION_ID) :
    handle_request_fields (encode_request_fields user [] sessionId)
      = .okReq ⟨cstr user, [], cstr sessionId⟩
    ∧ user_has_sudo [] probe = ⟨false, false, false⟩ := by
  constructor
  · have hsne : (cstr sessionId).isEmpty = false := by
      by_contra hc
      have hemp : (cstr sessionId).isEmpty = true := by
        simpa using hc
      unfold valid_session_id at hv
      rw [if_pos hemp] at hv
      cases hv
    rw [handle_encode user [] sessionId hu (by norm_num [PROTO_MAX_PASSWORD])
      (by unfold PROTO_MAX_SESSION_ID at hs; omega)]
    rw [if_neg (by omega), if_neg (by simp [hune, hsne]), if_neg (by simp [hv])]
    rfl
  · rfl

/-- Witness for `C9_empty_password` at a one-byte username and session id. -/
theorem C9_empty_password_witness :
    handle_request_fields (encode_request_fields [97] [] [97])
      = .okReq ⟨cstr [97], [], cstr [97]⟩
    ∧ user_has_sudo [] .timedOut = ⟨false, false, false⟩ :=
  C9_empty_password [97] [97] .timedOut (by norm_num [PROTO_MAX_USERNAME])
    (by decide) (by decide) (by norm_num [PROTO_MAX_SESSION_ID])

/-- Claim C10: every length-prefixed string the broker emits carries a
2-byte big-endian prefix equal to min(length, 65535) followed by exactly
that many bytes; a string longer than 65535 bytes is silently truncated to
65535 rather than rejected; a NULL string is emitted as length 0 with no
payload; and the bootstrap message is the 13-byte header followed by the
three such fields. -/
theorem C10_write_lenstr (s : List Nat) (sid username motd : Option (List Nat))
    (uid gid : Nat) (verbose privileged : Bool) :
    read_u16_be ((write_lenstr (some s)).getD 0 0) ((write_lenstr (some s)).getD 1 0)
        = min s.length 0xFFFF
    ∧ (write_lenstr (some s)).drop 2 = s.take 0xFFFF
    ∧ (write_lenstr (some s)).length = 2 + min s.length 0xFFFF
    ∧ write_lenstr none = [0, 0]
    ∧ (write_bootstrap_binary sid username motd uid gid verbose privileged).length
        = 13 + (write_lenstr sid).length + (write_lenstr username).length
          + (write_lenstr motd).length := by
  have hdrop : (write_lenstr (some s)).drop 2 = s.take (min s.length 0xFFFF) := by
    simp [write_lenstr, write_u16_be]
  have htake : s.take (min s.length 0xFFFF) = s.take 0xFFFF := by
    rw [List.take_eq_take]
    omega
  refine ⟨?_, ?_, ?_, rfl, ?_⟩
  · have hm : min s.length 0xFFFF ≤ 0xFFFF := Nat.min_le_right _ _
    exact read_u16_be_write _ hm
  · rw [hdrop, htake]
  · simp [write_lenstr, write_u16_be, List.length_take]
    omega
  · simp [write_bootstrap_binary, bootstrap_header, PROTO_MAGIC_BYTES, write_u32_be]
    omega

/-- Witness for `C4_session_id_acceptance` at a one-byte session id. -/
theorem C4_session_id_acceptance_witness :
    handle_request_fields (encode_request_fields [97] [] [97]) = .okReq ⟨[97], [], [97]⟩
      ↔ ([97] : List Nat) ≠ [] ∧ ([97] : List Nat).length < PROTO_MAX_SESSION_ID
        ∧ ([97] : List Nat).all session_char_ok = true :=
  (C4_session_id_acceptance [97] (by norm_num)).1

theorem open_and_validate_owner (f : FileMeta) (parent : DirMeta) (ro : Nat)
    (h : open_and_validate_bridge f parent ro = true) : f.uid = ro := by
  unfold open_and_validate_bridge validate_bridge_via_fd at h
  simp only [Bool.and_eq_true, beq_iff_eq] at h
  tauto

/-- Claim C6, counterexample: a user-owned bridge binary (regular, mode
0755, safe user-owned parent) is rejected by the broker even in
unprivileged mode — `handle_client` passes required owner 0 (root)
unconditionally — although the claimed user-or-root preference (which the
setuid helper does implement) would accept it. -/
theorem C6_counterexample :
    broker_bridge_accept ⟨true, 1000, 0o755⟩ ⟨true, 1000, 0o755⟩ = false
    ∧ helper_bridge_accept false 1000 ⟨true, 1000, 0o755⟩ ⟨true, 1000, 0o755⟩ = true := by
  decide

/-- Claim C6, amended: the broker accepts the target executable iff it is a
regular file, not group- or world-writable, owned by root, with at least
one executable bit, neither setuid nor setgid, and its root-owned parent
directory is not group- or world-writable — the required owner is root in
both modes at the broker's call site; the user-or-root order of preference
for the unprivileged case exists only in the setuid helper, whose
privileged path equals the broker's policy and whose unprivileged path
accepts only files owned by the user or by root. -/
theorem C6_bridge_validation (f : FileMeta) (parent : DirMeta) (userUid : Nat) :
    (broker_bridge_accept f parent = true ↔
      (f.isReg = true ∧ f.mode &&& 0o022 = 0 ∧ f.uid = 0 ∧ f.mode &&& 0o111 ≠ 0
        ∧ f.mode &&& 0o6000 = 0 ∧ parent.isDir = true ∧ parent.uid = 0
        ∧ parent.mode &&& 0o022 = 0))
    ∧ helper_bridge_accept true userUid f parent = broker_bridge_accept f parent
    ∧ (helper_bridge_accept false userUid f parent = true →
        f.uid = userUid ∨ f.uid = 0) := by
  refine ⟨?_, rfl, ?_⟩
  · constructor
    · intro h
      have hown : f.uid = 0 := open_and_validate_owner f parent 0 h
      unfold broker_bridge_accept open_and_validate_bridge validate_bridge_via_fd
        validate_parent_dir_policy at h
      rw [hown] at h
      cases hpd : parent.isDir with
      | false =>
        rw [hpd] at h
        simp at h
      | true =>
        rw [hpd] at h
        simp only [Bool.and_eq_true, beq_iff_eq, bne_iff_ne, ne_eq, Bool.not_true,
          Bool.false_eq_true, if_false, beq_self_eq_true, if_true] at h
        tauto
    · rintro ⟨hreg, hw, hown, hx, hsg, hpd, hpu, hpw⟩
      unfold broker_bridge_accept open_and_validate_bridge validate_bridge_via_fd
        validate_parent_dir_policy
      rw [hown, hpd, hreg]
      simp [hw, hx, hsg, hpu, hpw]
  · intro h
    unfold helper_bridge_accept at h
    rw [if_neg (by simp)] at h
    rw [Bool.or_eq_true] at h
    rcases h with h | h
    · exact Or.inl (open_and_validate_owner f parent userUid h)
    · exact Or.inr (open_and_validate_owner f parent 0 h)

/-- Witness for `C6_bridge_validation` at a root-owned 0755 binary in a
root-owned 0755 directory. -/
theorem C6_bridge_validation_witness :
    broker_bridge_accept ⟨true, 0, 0o755⟩ ⟨true, 0, 0o755⟩ = true :=
  ((C6_bridge_validation ⟨true, 0, 0o755⟩ ⟨true, 0, 0o755⟩ 1000).1).mpr
    (by refine ⟨rfl, by decide, rfl, by decide, by decide, rfl, rfl, by decide⟩)

theorem ensure_runtime_dirs_allOk (uid lgid : Nat) (fs fs2 : RunFs)
    (h : ensure_runtime_dirs uid lgid FsOps.allOk fs = some fs2) :
    fs2 = ⟨some ⟨true, 0, lgid, 0o2771⟩, some ⟨true, uid, lgid, 0o2770⟩⟩ := by
  simp only [ensure_runtime_dirs, FsOps.allOk] at h
  split_ifs at h with h1 h2 h3 h4
  all_goals simp_all

theorem ensure_runtime_dirs_fixed (uid lgid : Nat) :
    ensure_runtime_dirs uid lgid FsOps.allOk
        ⟨some ⟨true, 0, lgid, 0o2771⟩, some ⟨true, uid, lgid, 0o2770⟩⟩
      = some ⟨some ⟨true, 0, lgid, 0o2771⟩, some ⟨true, uid, lgid, 0o2770⟩⟩ := by
  have h2771 : (0o2771 : Nat) &&& 0o002 = 0 := by decide
  simp [ensure_runtime_dirs, FsOps.allOk, h2771]

/-- Claim C5, counterexample: a successful run of `ensure_runtime_dirs` on
an empty tree, with every repair syscall succeeding, leaves `/run/linuxio`
with mode 02771 — group-writable and different from the claimed 0755 — and
`/run/linuxio/<uid>` with mode 02770, not the claimed 02710. -/
theorem C5_counterexample :
    ensure_runtime_dirs 1000 985 FsOps.allOk ⟨none, none⟩
      = some ⟨some ⟨true, 0, 985, 0o2771⟩, some ⟨true, 1000, 985, 0o2770⟩⟩
    ∧ (0o2771 : Nat) &&& 0o020 ≠ 0
    ∧ (0o2771 : Nat) ≠ 0o755
    ∧ (0o2770 : Nat) ≠ 0o2710 := by
  decide

/-- Claim C5, amended: after a successful run with the repair syscalls
succeeding, `/run/linuxio` is owned by root with the socket group and has
mode 02771 (setgid, group-writable, not world-writable) and
`/run/linuxio/<uid>` is exactly mode 02770 owned by uid with the socket
group; the setup creates missing directories through directory handles and
is idempotent — running it again on the resulting tree succeeds and leaves
it unchanged. -/
theorem C5_runtime_dirs (uid lgid : Nat) (fs fs2 : RunFs)
    (h : ensure_runtime_dirs uid lgid FsOps.allOk fs = some fs2) :
    fs2 = ⟨some ⟨true, 0, lgid, 0o2771⟩, some ⟨true, uid, lgid, 0o2770⟩⟩
    ∧ ensure_runtime_dirs uid lgid FsOps.allOk fs2 = some fs2
    ∧ (∀ d, fs2.base = some d → d.mode &&& 0o002 = 0)
    ∧ (∀ d, fs2.userDir = some d → d.mode &&& 0o002 = 0) := by
  have hc := ensure_runtime_dirs_allOk uid lgid fs fs2 h
  subst hc
  refine ⟨rfl, ensure_runtime_dirs_fixed uid lgid, ?_, ?_⟩
  · intro d hd
    injection hd with hd
    subst hd
    show (0o2771 : Nat) &&& 0o002 = 0
    decide
  · intro d hd
    injection hd with hd
    subst hd
    show (0o2770 : Nat) &&& 0o002 = 0
    decide

/-- Witness for `C5_runtime_dirs`: a concrete successful run from the empty
tree, whose result the setup maps to itself. -/
theorem C5_runtime_dirs_witness :
    ensure_runtime_dirs 1000 985 FsOps.allOk
        ⟨some ⟨true, 0, 985, 0o2771⟩, some ⟨true, 1000, 985, 0o2770⟩⟩
      = some ⟨some ⟨true, 0, 985, 0o2771⟩, some ⟨true, 1000, 985, 0o2770⟩⟩ :=
  (C5_runtime_dirs 1000 985 ⟨none, none⟩
    ⟨some ⟨true, 0, 985, 0o2771⟩, some ⟨true, 1000, 985, 0o2770⟩⟩ (by decide)).2.1

end LinuxAuth
